import Mathlib

/-!
Shallow embedding of the credential-admission core of the Job_Portal_Nextjs
repository: the Zod validation schemas (`src/features/auth/auth.schema.ts`),
the registration and login server actions
(`src/features/auth/server/auth.action.tsx`), and the login page's submit
handler sanitization (`src/app/login/Login.tsx`).

JavaScript strings are embedded as Lean `String`, with the JavaScript string
operations (`trim`, `toLowerCase`, `startsWith`, `length`) re-implemented
over the underlying character list so that they evaluate by kernel
reduction.  Inputs of interest are ASCII, where these coincide with the
JavaScript semantics.

External collaborators are parameters: the database is a list of rows
(queries with a `where` clause become `List.find?`, matching the `[user]`
destructuring of the first returned row), the `argon2.hash` primitive is an
arbitrary function, and `argon2.verify` is an oracle that may either return
a boolean or fail (`Except Unit Bool`) — a thrown error lands in the
enclosing `catch` block of the action, exactly as in the source.
-/

namespace JobPortal

/-! ## JavaScript string primitives (over the character list) -/

/-- JavaScript whitespace recognized by `String.prototype.trim`
(ASCII portion). -/
def isJsWs (c : Char) : Bool :=
  c = ' ' || c = '\t' || c = '\n' || c = '\r' || c = Char.ofNat 11 || c = Char.ofNat 12

/-- Drop leading and trailing whitespace from a character list. -/
def trimList (cs : List Char) : List Char :=
  ((cs.dropWhile isJsWs).reverse.dropWhile isJsWs).reverse

/-- JavaScript `s.trim()`. -/
def jsTrim (s : String) : String := ⟨trimList s.data⟩

/-- JavaScript `s.toLowerCase()` (ASCII lowering, as `Char.toLower`). -/
def jsToLower (s : String) : String := ⟨s.data.map Char.toLower⟩

/-- JavaScript `s.length`. -/
def jsLength (s : String) : Nat := s.data.length

/-- JavaScript `s.startsWith('$')`. -/
def startsWithDollar (s : String) : Bool :=
  match s.data with
  | c :: _ => c = '$'
  | [] => false

/-- JavaScript line terminators (`.` in a regex without the `s` flag does
not match these). -/
def isJsLineTerm (c : Char) : Bool :=
  c = '\n' || c = '\r' || c = Char.ofNat 0x2028 || c = Char.ofNat 0x2029

/-- Split a character list at every occurrence of `sep`. -/
def splitOnChar (sep : Char) : List Char → List (List Char)
  | [] => [[]]
  | c :: rest =>
    match splitOnChar sep rest with
    | [] => [[]]
    | g :: gs => if c = sep then [] :: g :: gs else (c :: g) :: gs

/-- Does the list contain two consecutive dots (the `(?!.*\.\.)` lookahead
of the email pattern)? -/
def hasDotDot : List Char → Bool
  | c1 :: c2 :: rest => (c1 = '.' && c2 = '.') || hasDotDot (c2 :: rest)
  | _ => false

/-! ## The Zod string checks used by `auth.schema.ts` -/

/-- Character class `[a-zA-Z0-9_-]` of the userName regex. -/
def isUserNameChar (c : Char) : Bool :=
  c.isAlphanum || c = '_' || c = '-'

/-- The userName regex `^[a-zA-Z0-9_-]+$`: at least one character, all in
the class. -/
def userNameRegexOK (s : String) : Bool :=
  !s.data.isEmpty && s.data.all isUserNameChar

/-- Character allowed in the local part of Zod's email pattern:
`[A-Za-z0-9_'+\-\.]` (the apostrophe is `Char.ofNat 39`). -/
def isEmailLocalChar (c : Char) : Bool :=
  c.isAlphanum || c = '_' || c = Char.ofNat 39 || c = '+' || c = '-' || c = '.'

/-- Character allowed as the final local-part character:
`[A-Za-z0-9_+\-]`. -/
def isEmailLocalEndChar (c : Char) : Bool :=
  c.isAlphanum || c = '_' || c = '+' || c = '-'

/-- Local part of the email pattern: non-empty over the local alphabet, not
starting with a dot, no `..`, ending in `[A-Za-z0-9_+\-]`. -/
def emailLocalOK (cs : List Char) : Bool :=
  !cs.isEmpty && cs.all isEmailLocalChar &&
    (match cs.head? with
     | some c => !(c = '.')
     | none => false) &&
    !hasDotDot cs &&
    (match cs.getLast? with
     | some c => isEmailLocalEndChar c
     | none => false)

/-- A non-final domain label: `[A-Za-z0-9][A-Za-z0-9\-]*`. -/
def emailLabelOK (cs : List Char) : Bool :=
  match cs with
  | c :: rest => c.isAlphanum && rest.all (fun d => d.isAlphanum || d = '-')
  | [] => false

/-- The final label (TLD): `[A-Za-z]{2,}`. -/
def emailTldOK (cs : List Char) : Bool :=
  2 ≤ cs.length && cs.all Char.isAlpha

/-- Domain of the email pattern: `([A-Za-z0-9][A-Za-z0-9\-]*\.)+[A-Za-z]{2,}`. -/
def emailDomainOK (cs : List Char) : Bool :=
  match (splitOnChar '.' cs).reverse with
  | tld :: labels => 2 ≤ (splitOnChar '.' cs).length &&
      emailTldOK tld && labels.all emailLabelOK
  | [] => false

/-- Zod's `.email()` format check (its documented email pattern:
single `@`, guarded local part, dot-separated domain labels with an
alphabetic TLD of length at least two). -/
def validEmail (s : String) : Bool :=
  match splitOnChar '@' s.data with
  | [loc, dom] => emailLocalOK loc && emailDomainOK dom
  | _ => false

/-- The maximal prefix of the string that `.*` can traverse in a JavaScript
regex without the `s` flag (stops at line terminators). -/
def firstLine (s : String) : List Char :=
  s.data.takeWhile (fun c => !isJsLineTerm c)

/-- The password regex `^(?=.*[a-z])(?=.*[A-Z])(?=.*\d)`: the first line
must contain a lowercase letter, an uppercase letter and a digit. -/
def passwordRegexOK (s : String) : Bool :=
  (firstLine s).any Char.isLower && (firstLine s).any Char.isUpper &&
    (firstLine s).any Char.isDigit

/-! ## `auth.schema.ts`: issue lists in declaration order

Zod's `safeParse` on a `z.object` walks the shape keys in declaration
order; within a string field the chained transforms and checks run in
chain order, every failing check contributing one issue.  The embedding
computes that ordered issue list per field and concatenates the fields in
declaration order (`name`, `userName`, `email`, `password`, `role`). -/

/-- A Zod issue: the field path it is attached to and its message. -/
structure FieldIssue where
  path : String
  message : String
deriving DecidableEq, Repr

def nameMinMsg : String := "Name must be atleast 2 char long"

def nameMaxMsg : String := "Name must not excee 255 characters"

def userNameMinMsg : String := "Username must be atleast 3 characters long"

def userNameMaxMsg : String := "Username must not exceed 255 characters"

def userNameRegexMsg : String :=
  "Username  can only contain letters , numbers , underscores , and hyphens"

def emailFormatMsg : String := "Please enter a valid email address"

def emailMaxMsg : String := "Email must not exceed 255 characters"

def passwordMinMsg : String := "Password must be atleast character long"

def passwordRegexMsg : String :=
  "Password must contain at leaset one lowercase letter , one uppercase letter and one number"

def roleEnumMsg : String := "Role must be either an applicant or employer"

def passwordMismatchMsg : String := "Passwords don't match"

/-- `name: z.string().trim().min(2).max(255)`. -/
def nameIssues (raw : String) : List FieldIssue :=
  let v := jsTrim raw
  (if jsLength v < 2 then [⟨"name", nameMinMsg⟩] else []) ++
  (if 255 < jsLength v then [⟨"name", nameMaxMsg⟩] else [])

/-- `userName: z.string().trim().min(3).max(255).regex(/^[a-zA-Z0-9_-]+$/)`. -/
def userNameIssues (raw : String) : List FieldIssue :=
  let v := jsTrim raw
  (if jsLength v < 3 then [⟨"userName", userNameMinMsg⟩] else []) ++
  (if 255 < jsLength v then [⟨"userName", userNameMaxMsg⟩] else []) ++
  (if !userNameRegexOK v then [⟨"userName", userNameRegexMsg⟩] else [])

/-- `email: z.string().trim().toLowerCase().email().max(255)`; the checks
observe the trimmed, lowercased value. -/
def emailIssues (raw : String) : List FieldIssue :=
  let v := jsToLower (jsTrim raw)
  (if !validEmail v then [⟨"email", emailFormatMsg⟩] else []) ++
  (if 255 < jsLength v then [⟨"email", emailMaxMsg⟩] else [])

/-- `password: z.string().min(8).regex(/^(?=.*[a-z])(?=.*[A-Z])(?=.*\d)/)`
(no transform on the password). -/
def passwordIssues (raw : String) : List FieldIssue :=
  (if jsLength raw < 8 then [⟨"password", passwordMinMsg⟩] else []) ++
  (if !passwordRegexOK raw then [⟨"password", passwordRegexMsg⟩] else [])

/-- `role: z.enum(["applicant","employer"]).default("applicant")`: an
absent field takes the default and is not checked; a present value must be
one of the two role literals. -/
def roleIssues (raw : Option String) : List FieldIssue :=
  match raw with
  | none => []
  | some r =>
    if r = "applicant" || r = "employer" then [] else [⟨"role", roleEnumMsg⟩]

/-- A raw registration submission (`role` optional, as in the schema). -/
structure RawRegistration where
  name : String
  userName : String
  email : String
  password : String
  role : Option String
deriving DecidableEq, Repr

/-- The sanitized identity produced by a successful parse. -/
structure SanitizedRegistration where
  name : String
  userName : String
  email : String
  password : String
  role : String
deriving DecidableEq, Repr

/-- All issues of `registerUserSchema.safeParse`, fields in declaration
order. -/
def registerUserSchemaIssues (raw : RawRegistration) : List FieldIssue :=
  nameIssues raw.name ++ userNameIssues raw.userName ++
    emailIssues raw.email ++ passwordIssues raw.password ++ roleIssues raw.role

/-- The per-field transforms applied by a successful parse. -/
def sanitizeRegistration (raw : RawRegistration) : SanitizedRegistration :=
  { name := jsTrim raw.name
    userName := jsTrim raw.userName
    email := jsToLower (jsTrim raw.email)
    password := raw.password
    role := raw.role.getD "applicant" }

/-- `registerUserSchema.safeParse`: the sanitized data on success, the
issue list's first issue on failure (the action reads `error.issues[0]`). -/
def registerUserSchemaSafeParse (raw : RawRegistration) :
    Except FieldIssue SanitizedRegistration :=
  match registerUserSchemaIssues raw with
  | [] => .ok (sanitizeRegistration raw)
  | i :: _ => .error i

/-- A raw submission of the confirmation variant
(`registerUserWithConfirmSchema`). -/
structure RawRegistrationConfirm where
  name : String
  userName : String
  email : String
  password : String
  role : Option String
  confirmPassword : String
deriving DecidableEq, Repr

/-- The base-schema fields of a confirmation-variant submission. -/
def RawRegistrationConfirm.base (raw : RawRegistrationConfirm) : RawRegistration :=
  ⟨raw.name, raw.userName, raw.email, raw.password, raw.role⟩

/-- Issues of `registerUserWithConfirmSchema.safeParse`: the extended shape
adds `confirmPassword: z.string()` (no checks of its own); the `.refine`
cross-field rule is evaluated once the per-field rules of the wrapped
object have all passed, and on failure attaches its single issue to the
`confirmPassword` path. -/
def registerUserWithConfirmSchemaIssues (raw : RawRegistrationConfirm) :
    List FieldIssue :=
  match registerUserSchemaIssues raw.base with
  | [] =>
    if raw.password = raw.confirmPassword then []
    else [⟨"confirmPassword", passwordMismatchMsg⟩]
  | i :: rest => i :: rest

/-! ## `auth.action.tsx`: the two server actions -/

/-- The uniform result envelope `{status, message}`. -/
structure Outcome where
  status : String
  message : String
deriving DecidableEq, Repr

/-- A stored identity row of the `users` table. -/
structure UserRecord where
  name : String
  userName : String
  email : String
  password : String
  role : String
deriving DecidableEq, Repr

/-- The database: the rows of the `users` table in storage order. -/
abbrev Db := List UserRecord

def invalidCredMsg : String := "Invalid email or password"

def unknownErrorMsg : String := "Unknown Error Occured ! Please Try Again Later"

def emailExistsMsg : String := "Email Already Exists"

def userNameExistsMsg : String := "Username Already Exists"

def registrationSuccessMsg : String := "Registration Completed Successfully"

def loginSuccessMsg : String := "Login Successful"

/-- The `where(or(eq(users.email, email), eq(users.userName, userName)))`
predicate of the registration duplicate query. -/
def dupPred (v : SanitizedRegistration) (u : UserRecord) : Bool :=
  u.email = v.email || u.userName = v.userName

/-- The registration duplicate query: first row matching the email or the
userName (the action destructures `[user]` from the returned rows). -/
def findDuplicate (db : Db) (v : SanitizedRegistration) : Option UserRecord :=
  db.find? (dupPred v)

/-- The login lookup `where(eq(users.email, email))`, destructured to its
first row. -/
def findByEmail (db : Db) (email : String) : Option UserRecord :=
  db.find? (fun u => u.email = email)

/-- A failure signal raised by `db.insert`; a uniqueness-constraint
violation is distinguishable from other failures. -/
inductive InsertError
  | uniqueViolation
  | otherFailure
deriving DecidableEq, Repr

/-- Observable result of one run of `registrationAction`: the returned
envelope, the database after the run, and whether `argon2.hash` and
`db.insert` were reached. -/
structure RegResult where
  outcome : Outcome
  db : Db
  hashCalled : Bool
  insertRequested : Bool
deriving DecidableEq, Repr

/-- `registrationAction` of `auth.action.tsx`: validate with
`registerUserSchema` (returning `error.issues[0].message` on failure),
query for a record matching the email or the userName and report the
duplicate by the first returned record's email, otherwise hash and insert.
A failure thrown by the insert is caught by the surrounding `catch`, which
returns the generic unknown-error envelope whatever the failure was. -/
def registrationAction (raw : RawRegistration) (db : Db)
    (hash : String → String) (insertErr : Option InsertError) : RegResult :=
  match registerUserSchemaIssues raw with
  | issue :: _ => ⟨⟨"ERROR", issue.message⟩, db, false, false⟩
  | [] =>
    let v := sanitizeRegistration raw
    match findDuplicate db v with
    | some u =>
      if u.email = v.email then ⟨⟨"ERROR", emailExistsMsg⟩, db, false, false⟩
      else ⟨⟨"ERROR", userNameExistsMsg⟩, db, false, false⟩
    | none =>
      let hashPassword := hash v.password
      match insertErr with
      | some _ => ⟨⟨"ERROR", unknownErrorMsg⟩, db, true, true⟩
      | none =>
        ⟨⟨"SUCCESS", registrationSuccessMsg⟩,
          db ++ [⟨v.name, v.userName, v.email, hashPassword, v.role⟩],
          true, true⟩

/-- The login form data `{email, password}`. -/
structure LoginFormData where
  email : String
  password : String
deriving DecidableEq, Repr

/-- `loginUserAction` of `auth.action.tsx`: look the user up by email
(`!user` → generic failure), guard the stored password
(`!user.password || !user.password.startsWith('$')` → generic failure),
then delegate to `argon2.verify`; a verify error is caught by the
surrounding `catch`, which returns the generic unknown-error envelope. -/
def loginUserAction (formData : LoginFormData) (db : Db)
    (verify : String → String → Except Unit Bool) : Outcome :=
  match findByEmail db formData.email with
  | none => ⟨"ERROR", invalidCredMsg⟩
  | some user =>
    if user.password = "" || !startsWithDollar user.password then
      ⟨"ERROR", invalidCredMsg⟩
    else
      match verify user.password formData.password with
      | .error _ => ⟨"ERROR", unknownErrorMsg⟩
      | .ok true => ⟨"SUCCESS", loginSuccessMsg⟩
      | .ok false => ⟨"ERROR", invalidCredMsg⟩

/-- The login page's submit handler (`Login.tsx`) builds the data it sends
to `loginUserAction` as
`{email: formData.email.toLowerCase().trim(), password: formData.password.trim()}`. -/
def loginSubmitData (raw : LoginFormData) : LoginFormData :=
  ⟨jsTrim (jsToLower raw.email), jsTrim raw.password⟩

/-- The complete login flow: the page handler's sanitization followed by
the server action. -/
def loginFlow (raw : LoginFormData) (db : Db)
    (verify : String → String → Except Unit Bool) : Outcome :=
  loginUserAction (loginSubmitData raw) db verify

/-! ## Claims -/

/-- C1: every login submission that fails because no stored record exists
for the submitted email, because the stored record's secret fails the guard
(empty or missing the `$` prefix), or because the delegated verify returns
false, yields exactly the same envelope
`{status: "ERROR", message: "Invalid email or password"}`. -/
theorem c1_login_uniform_failure_message (formData : LoginFormData) (db : Db)
    (verify : String → String → Except Unit Bool)
    (h : findByEmail db formData.email = none ∨
         (∃ u, findByEmail db formData.email = some u ∧
            (u.password = "" ∨ startsWithDollar u.password = false)) ∨
         (∃ u, findByEmail db formData.email = some u ∧
            u.password ≠ "" ∧ startsWithDollar u.password = true ∧
            verify u.password formData.password = .ok false)) :
    loginUserAction formData db verify = ⟨"ERROR", invalidCredMsg⟩ := by
  unfold loginUserAction
  rcases h with h | ⟨u, hu, hg⟩ | ⟨u, hu, hne, hsw, hv⟩
  · rw [h]
  · rw [hu]
    have hcond : (decide (u.password = "") || !startsWithDollar u.password) = true := by
      rcases hg with h1 | h2
      · simp [h1]
      · simp [h2]
    simp only [hcond, if_true]
  · rw [hu]
    have hcond : (decide (u.password = "") || !startsWithDollar u.password) = false := by
      simp [hne, hsw]
    simp only [hcond, Bool.false_eq_true, if_false, hv]

/-- Witness for C1: all three causes evaluated on concrete inputs produce
the identical envelope. -/
theorem c1_witness :
    loginUserAction ⟨"x@y.com", "pw"⟩ [] (fun _ _ => .ok false) =
      ⟨"ERROR", invalidCredMsg⟩ ∧
    loginUserAction ⟨"a@b.com", "pw"⟩
      [⟨"N", "n", "a@b.com", "plain", "applicant"⟩] (fun _ _ => .ok false) =
      ⟨"ERROR", invalidCredMsg⟩ ∧
    loginUserAction ⟨"a@b.com", "pw"⟩
      [⟨"N", "n", "a@b.com", "$h", "applicant"⟩] (fun _ _ => .ok false) =
      ⟨"ERROR", invalidCredMsg⟩ := by
  refine ⟨?_, ?_, ?_⟩
  · exact c1_login_uniform_failure_message _ _ _ (Or.inl (by decide))
  · exact c1_login_uniform_failure_message _ _ _
      (Or.inr (Or.inl ⟨⟨"N", "n", "a@b.com", "plain", "applicant"⟩,
        by decide, Or.inr (by decide)⟩))
  · exact c1_login_uniform_failure_message _ _ _
      (Or.inr (Or.inr ⟨⟨"N", "n", "a@b.com", "$h", "applicant"⟩,
        by decide, by decide, by decide, rfl⟩))

/-- C2 counterexample: a stored secret that begins with the `$` prefix but
makes the underlying verify primitive fail is not treated as a non-match:
the thrown error reaches the outer catch, which returns the generic
unknown-error envelope instead of the invalid-credential one. -/
theorem c2_counterexample :
    startsWithDollar "$bogus" = true ∧
    loginUserAction ⟨"a@b.com", "pw"⟩
      [⟨"N", "n", "a@b.com", "$bogus", "applicant"⟩] (fun _ _ => .error ()) =
      ⟨"ERROR", unknownErrorMsg⟩ ∧
    (⟨"ERROR", unknownErrorMsg⟩ : Outcome) ≠ ⟨"ERROR", invalidCredMsg⟩ := by
  decide

/-- C2 amended: stored values that are empty or lack the `$` prefix are
rejected by the guard with the invalid-credential envelope, without the
verify oracle being consulted at all; but an internal verify error on a
`$`-prefixed stored value propagates to the outer catch and yields the
generic unknown-error envelope, not the invalid-credential one. -/
theorem c2_amended_guard_total_verify_error_generic (formData : LoginFormData)
    (db : Db) (u : UserRecord) (hu : findByEmail db formData.email = some u) :
    ((u.password = "" ∨ startsWithDollar u.password = false) →
      ∀ vf vf2 : String → String → Except Unit Bool,
        loginUserAction formData db vf = ⟨"ERROR", invalidCredMsg⟩ ∧
        loginUserAction formData db vf = loginUserAction formData db vf2) ∧
    (u.password ≠ "" → startsWithDollar u.password = true →
      ∀ vf : String → String → Except Unit Bool,
        vf u.password formData.password = .error () →
          loginUserAction formData db vf = ⟨"ERROR", unknownErrorMsg⟩) := by
  constructor
  · intro hg vf vf2
    have hcond : (decide (u.password = "") || !startsWithDollar u.password) = true := by
      rcases hg with h1 | h2
      · simp [h1]
      · simp [h2]
    constructor
    · unfold loginUserAction
      rw [hu]
      simp only [hcond, if_true]
    · unfold loginUserAction
      rw [hu]
      simp only [hcond, if_true]
  · intro hne hsw vf hv
    have hcond : (decide (u.password = "") || !startsWithDollar u.password) = false := by
      simp [hne, hsw]
    unfold loginUserAction
    rw [hu]
    simp only [hcond, Bool.false_eq_true, if_false, hv]

/-- Witness for C2 amended: the guard path and the verify-error path
evaluated on concrete inputs. -/
theorem c2_amended_witness :
    loginUserAction ⟨"a@b.com", "pw"⟩
      [⟨"N", "n", "a@b.com", "plain", "applicant"⟩] (fun _ _ => .error ()) =
      ⟨"ERROR", invalidCredMsg⟩ ∧
    loginUserAction ⟨"c@d.com", "pw"⟩
      [⟨"N", "n", "c@d.com", "$weird", "applicant"⟩] (fun _ _ => .error ()) =
      ⟨"ERROR", unknownErrorMsg⟩ := by
  constructor
  · exact ((c2_amended_guard_total_verify_error_generic
      ⟨"a@b.com", "pw"⟩ [⟨"N", "n", "a@b.com", "plain", "applicant"⟩]
      ⟨"N", "n", "a@b.com", "plain", "applicant"⟩ (by decide)).1
      (Or.inr (by decide)) _ (fun _ _ => .ok true)).1
  · exact (c2_amended_guard_total_verify_error_generic
      ⟨"c@d.com", "pw"⟩ [⟨"N", "n", "c@d.com", "$weird", "applicant"⟩]
      ⟨"N", "n", "c@d.com", "$weird", "applicant"⟩ (by decide)).2
      (by decide) (by decide) _ rfl

/-- C3 (code divergence): when the insert fails with a
uniqueness-constraint-violation signal, the registration flow does not
return the duplicate-identity envelope — the blanket catch returns the
generic unknown-error envelope instead. -/
theorem c3_unique_violation_maps_to_generic :
    registrationAction ⟨"John", "jo_1", "a@b.com", "Abcdefg1", some "applicant"⟩
      [] (fun _ => "$h") (some .uniqueViolation) =
      ⟨⟨"ERROR", unknownErrorMsg⟩, [], true, true⟩ ∧
    unknownErrorMsg ≠ emailExistsMsg ∧ unknownErrorMsg ≠ userNameExistsMsg := by
  decide

/-- A successful `safeParse` means the issue list is empty and the data is
the transformed submission. -/
theorem registerUserSchemaSafeParse_ok {raw : RawRegistration}
    {v : SanitizedRegistration} (hv : registerUserSchemaSafeParse raw = .ok v) :
    registerUserSchemaIssues raw = [] ∧ v = sanitizeRegistration raw := by
  unfold registerUserSchemaSafeParse at hv
  cases hiss : registerUserSchemaIssues raw with
  | nil =>
    rw [hiss] at hv
    simp only [Except.ok.injEq] at hv
    exact ⟨rfl, hv.symm⟩
  | cons i rest =>
    rw [hiss] at hv
    simp at hv

/-- C4: on a sanitized submission whose duplicate query returns at least
one record, the outcome is decided by the first returned record only:
"Email Already Exists" when that record's email equals the submitted
email, "Username Already Exists" otherwise; when the query returns no
record the flow proceeds to hashing and insertion. -/
theorem c4_duplicate_tiebreak (raw : RawRegistration) (db : Db)
    (hash : String → String) (ie : Option InsertError)
    (v : SanitizedRegistration)
    (hv : registerUserSchemaSafeParse raw = .ok v) :
    (∀ u, findDuplicate db v = some u →
      registrationAction raw db hash ie =
        ⟨⟨"ERROR", if u.email = v.email then emailExistsMsg else userNameExistsMsg⟩,
          db, false, false⟩) ∧
    (findDuplicate db v = none →
      (registrationAction raw db hash ie).hashCalled = true ∧
      (registrationAction raw db hash ie).insertRequested = true) := by
  obtain ⟨hiss, rfl⟩ := registerUserSchemaSafeParse_ok hv
  constructor
  · intro u hu
    simp only [registrationAction, hiss, hu]
    by_cases he : u.email = (sanitizeRegistration raw).email
    · simp [he]
    · simp [he]
  · intro hu
    cases ie with
    | none => simp [registrationAction, hiss, hu]
    | some e => simp [registrationAction, hiss, hu]

/-- Witness for C4: an email collision, a userName collision, and an empty
query result, on concrete inputs. -/
theorem c4_witness :
    registrationAction ⟨"John", "jo_1", "a@b.com", "Abcdefg1", some "applicant"⟩
      [⟨"X", "other", "a@b.com", "$h", "employer"⟩] (fun _ => "$h") none =
      ⟨⟨"ERROR", emailExistsMsg⟩, [⟨"X", "other", "a@b.com", "$h", "employer"⟩],
        false, false⟩ ∧
    registrationAction ⟨"John", "jo_1", "a@b.com", "Abcdefg1", some "applicant"⟩
      [⟨"X", "jo_1", "x@y.com", "$h", "employer"⟩] (fun _ => "$h") none =
      ⟨⟨"ERROR", userNameExistsMsg⟩, [⟨"X", "jo_1", "x@y.com", "$h", "employer"⟩],
        false, false⟩ ∧
    (registrationAction ⟨"John", "jo_1", "a@b.com", "Abcdefg1", some "applicant"⟩
      [] (fun _ => "$h") none).hashCalled = true := by
  refine ⟨?_, ?_, ?_⟩
  · have h := ((c4_duplicate_tiebreak
      ⟨"John", "jo_1", "a@b.com", "Abcdefg1", some "applicant"⟩
      [⟨"X", "other", "a@b.com", "$h", "employer"⟩] (fun _ => "$h") none
      ⟨"John", "jo_1", "a@b.com", "Abcdefg1", "applicant"⟩ (by rfl)).1
      ⟨"X", "other", "a@b.com", "$h", "employer"⟩ (by decide))
    simpa using h
  · have h := ((c4_duplicate_tiebreak
      ⟨"John", "jo_1", "a@b.com", "Abcdefg1", some "applicant"⟩
      [⟨"X", "jo_1", "x@y.com", "$h", "employer"⟩] (fun _ => "$h") none
      ⟨"John", "jo_1", "a@b.com", "Abcdefg1", "applicant"⟩ (by rfl)).1
      ⟨"X", "jo_1", "x@y.com", "$h", "employer"⟩ (by decide))
    simpa using h
  · exact ((c4_duplicate_tiebreak
      ⟨"John", "jo_1", "a@b.com", "Abcdefg1", some "applicant"⟩
      [] (fun _ => "$h") none
      ⟨"John", "jo_1", "a@b.com", "Abcdefg1", "applicant"⟩ (by rfl)).2
      (by decide)).1

/-- C5 counterexample: the minimum-length bound and the character-class
conditions do not share one single message — a too-short password and a
class-violating password produce two distinct messages. -/
theorem c5_counterexample :
    registrationAction ⟨"John", "jo_1", "a@b.com", "Abc1234", some "applicant"⟩
      [] (fun _ => "$h") none =
      ⟨⟨"ERROR", passwordMinMsg⟩, [], false, false⟩ ∧
    registrationAction ⟨"John", "jo_1", "a@b.com", "abcdefgh", some "applicant"⟩
      [] (fun _ => "$h") none =
      ⟨⟨"ERROR", passwordRegexMsg⟩, [], false, false⟩ ∧
    passwordMinMsg ≠ passwordRegexMsg := by
  decide

/-- C5 amended: the three character-class conditions are one single regex
constraint with one shared message — on a password meeting the length
bound, whichever of the three classes is missing, the password's issue
list is exactly the one class message; the length bound is a separate
constraint with a message of its own. -/
theorem c5_amended_single_class_message (pw : String)
    (hlen : 8 ≤ jsLength pw)
    (hmiss : (firstLine pw).any Char.isLower = false ∨
             (firstLine pw).any Char.isUpper = false ∨
             (firstLine pw).any Char.isDigit = false) :
    passwordIssues pw = [⟨"password", passwordRegexMsg⟩] := by
  have hreg : passwordRegexOK pw = false := by
    unfold passwordRegexOK
    rcases hmiss with h | h | h <;> simp [h]
  have hl : ¬ jsLength pw < 8 := by omega
  unfold passwordIssues
  simp [hl, hreg]

/-- Witness for C5 amended: a password missing only an uppercase letter
and a digit receives exactly the single class message. -/
theorem c5_amended_witness :
    8 ≤ jsLength "abcdefgh" ∧
    passwordIssues "abcdefgh" = [⟨"password", passwordRegexMsg⟩] :=
  ⟨by decide, c5_amended_single_class_message "abcdefgh" (by decide)
    (Or.inr (Or.inl (by decide)))⟩

/-- C6: the login flow sends the server action an identity whose email is
the raw submitted email lowercased and trimmed and whose plaintext secret
is the raw submitted secret trimmed, and the lookup and verification run
on exactly those sanitized values. -/
theorem c6_login_sanitization (raw : LoginFormData) :
    (loginSubmitData raw).email = jsTrim (jsToLower raw.email) ∧
    (loginSubmitData raw).password = jsTrim raw.password ∧
    ∀ (db : Db) (vf : String → String → Except Unit Bool),
      loginFlow raw db vf =
        loginUserAction ⟨jsTrim (jsToLower raw.email), jsTrim raw.password⟩ db vf :=
  ⟨rfl, rfl, fun _ _ => rfl⟩

/-- C7: an invalid registration submission is answered with exactly one
message — the head of the issue list ordered by field declaration and then
constraint declaration — and the cross-field password/confirmation rule of
the confirmation variant contributes nothing while any per-field rule
fails, attaching its single issue to the `confirmPassword` path otherwise. -/
theorem c7_first_issue_and_cross_field_rule (raw : RawRegistration) (db : Db)
    (hash : String → String) (ie : Option InsertError)
    (i : FieldIssue) (rest : List FieldIssue)
    (h : registerUserSchemaIssues raw = i :: rest) :
    registrationAction raw db hash ie = ⟨⟨"ERROR", i.message⟩, db, false, false⟩ ∧
    ∀ rawC : RawRegistrationConfirm,
      (registerUserSchemaIssues rawC.base ≠ [] →
        registerUserWithConfirmSchemaIssues rawC =
          registerUserSchemaIssues rawC.base) ∧
      (registerUserSchemaIssues rawC.base = [] →
        rawC.password ≠ rawC.confirmPassword →
        registerUserWithConfirmSchemaIssues rawC =
          [⟨"confirmPassword", passwordMismatchMsg⟩]) := by
  constructor
  · simp [registrationAction, h]
  · intro rawC
    constructor
    · intro hne
      cases hbase : registerUserSchemaIssues rawC.base with
      | nil => exact absurd hbase hne
      | cons j js => simp [registerUserWithConfirmSchemaIssues, hbase]
    · intro hbase hneq
      simp [registerUserWithConfirmSchemaIssues, hbase, hneq]

/-- Witness for C7: a submission violating both the name rule and the
password rule is answered with only the name message (first field in
declaration order), and a clean base submission with mismatched passwords
receives the single confirmation-path issue. -/
theorem c7_witness :
    registrationAction ⟨"J", "jo_1", "a@b.com", "abcdefgh", some "applicant"⟩
      [] (fun _ => "$h") none =
      ⟨⟨"ERROR", nameMinMsg⟩, [], false, false⟩ ∧
    registerUserWithConfirmSchemaIssues
      ⟨"John", "jo_1", "a@b.com", "Abcdefg1", some "applicant", "Other1234"⟩ =
      [⟨"confirmPassword", passwordMismatchMsg⟩] := by
  constructor
  · exact (c7_first_issue_and_cross_field_rule
      ⟨"J", "jo_1", "a@b.com", "abcdefgh", some "applicant"⟩ [] (fun _ => "$h")
      none ⟨"name", nameMinMsg⟩ [⟨"password", passwordRegexMsg⟩] (by decide)).1
  · exact ((c7_first_issue_and_cross_field_rule
      ⟨"J", "jo_1", "a@b.com", "abcdefgh", some "applicant"⟩ [] (fun _ => "$h")
      none ⟨"name", nameMinMsg⟩ [⟨"password", passwordRegexMsg⟩] (by decide)).2
      ⟨"John", "jo_1", "a@b.com", "Abcdefg1", some "applicant", "Other1234"⟩).2
      (by decide) (by decide)

/-- C8: a successfully validated registration submission carries an email
equal to the submitted email trimmed and lowercased, and a role equal to
"applicant" whenever the role field was absent. -/
theorem c8_email_transform_and_role_default (raw : RawRegistration)
    (v : SanitizedRegistration)
    (hv : registerUserSchemaSafeParse raw = .ok v) :
    v.email = jsToLower (jsTrim raw.email) ∧
    (raw.role = none → v.role = "applicant") := by
  obtain ⟨-, rfl⟩ := registerUserSchemaSafeParse_ok hv
  refine ⟨rfl, fun hr => ?_⟩
  simp [sanitizeRegistration, hr]

/-- Witness for C8: a concrete submission with mixed-case, padded email
and no role validates to the lowercased trimmed email and the default
role. -/
theorem c8_witness :
    registerUserSchemaSafeParse ⟨"John", "jo_1", " A@B.com ", "Abcdefg1", none⟩ =
      .ok ⟨"John", "jo_1", "a@b.com", "Abcdefg1", "applicant"⟩ ∧
    (⟨"John", "jo_1", "a@b.com", "Abcdefg1", "applicant"⟩ :
      SanitizedRegistration).email = jsToLower (jsTrim " A@B.com ") ∧
    (⟨"John", "jo_1", "a@b.com", "Abcdefg1", "applicant"⟩ :
      SanitizedRegistration).role = "applicant" := by
  refine ⟨by rfl, ?_, ?_⟩
  · exact (c8_email_transform_and_role_default
      ⟨"John", "jo_1", " A@B.com ", "Abcdefg1", none⟩
      ⟨"John", "jo_1", "a@b.com", "Abcdefg1", "applicant"⟩ (by rfl)).1
  · exact (c8_email_transform_and_role_default
      ⟨"John", "jo_1", " A@B.com ", "Abcdefg1", none⟩
      ⟨"John", "jo_1", "a@b.com", "Abcdefg1", "applicant"⟩ (by rfl)).2 rfl

/-- C9 counterexample: a submission whose userName value contains a
character outside `[A-Za-z0-9_-]` (a trailing space) is nevertheless
accepted, because the `.trim()` transform runs before the regex
constraint. -/
theorem c9_counterexample :
    ("jo_1 ".data.any (fun c => !isUserNameChar c)) = true ∧
    registerUserSchemaSafeParse ⟨"John", "jo_1 ", "a@b.com", "Abcdefg1", some "applicant"⟩ =
      .ok ⟨"John", "jo_1", "a@b.com", "Abcdefg1", "applicant"⟩ :=
  ⟨by decide, by rfl⟩

/-- C9 amended: a submission whose trimmed userName still contains a
character outside `[A-Za-z0-9_-]` fails validation with the userName
regex issue. -/
theorem c9_amended_trimmed_userName_charset (raw : RawRegistration)
    (h : (jsTrim raw.userName).data.any (fun c => !isUserNameChar c) = true) :
    (⟨"userName", userNameRegexMsg⟩ : FieldIssue) ∈ registerUserSchemaIssues raw ∧
    ∀ v, registerUserSchemaSafeParse raw ≠ .ok v := by
  have hall : (jsTrim raw.userName).data.all isUserNameChar = false := by
    rcases List.any_eq_true.mp h with ⟨c, hc, hbad⟩
    rw [Bool.eq_false_iff]
    intro hAll
    have hcg := List.all_eq_true.mp hAll c hc
    simp [hcg] at hbad
  have hreg : userNameRegexOK (jsTrim raw.userName) = false := by
    unfold userNameRegexOK
    simp [hall]
  have hmem : (⟨"userName", userNameRegexMsg⟩ : FieldIssue) ∈
      userNameIssues raw.userName := by
    unfold userNameIssues
    simp [hreg]
  have hmemFull : (⟨"userName", userNameRegexMsg⟩ : FieldIssue) ∈
      registerUserSchemaIssues raw := by
    unfold registerUserSchemaIssues
    exact List.mem_append_left _ (List.mem_append_left _
      (List.mem_append_left _ (List.mem_append_right _ hmem)))
  refine ⟨hmemFull, fun v hv => ?_⟩
  have hnil := (registerUserSchemaSafeParse_ok hv).1
  rw [hnil] at hmemFull
  exact List.not_mem_nil _ hmemFull

/-- Witness for C9 amended: a userName with an exclamation mark is
rejected with the regex issue. -/
theorem c9_amended_witness :
    ((jsTrim "jo!x").data.any (fun c => !isUserNameChar c) = true) ∧
    (⟨"userName", userNameRegexMsg⟩ : FieldIssue) ∈
      registerUserSchemaIssues ⟨"John", "jo!x", "a@b.com", "Abcdefg1", some "applicant"⟩ :=
  ⟨by decide, (c9_amended_trimmed_userName_charset
    ⟨"John", "jo!x", "a@b.com", "Abcdefg1", some "applicant"⟩ (by decide)).1⟩

/-- C10: on the validation-error path and on the duplicate path the stored
state is unchanged, no hashing is performed and no insert is requested,
and the returned status is ERROR. -/
theorem c10_no_side_effects_on_error_paths (raw : RawRegistration) (db : Db)
    (hash : String → String) (ie : Option InsertError)
    (h : registerUserSchemaIssues raw ≠ [] ∨
         ∃ u, findDuplicate db (sanitizeRegistration raw) = some u) :
    (registrationAction raw db hash ie).db = db ∧
    (registrationAction raw db hash ie).hashCalled = false ∧
    (registrationAction raw db hash ie).insertRequested = false ∧
    (registrationAction raw db hash ie).outcome.status = "ERROR" := by
  rcases h with h | ⟨u, hu⟩
  · cases hiss : registerUserSchemaIssues raw with
    | nil => exact absurd hiss h
    | cons i rest => simp [registrationAction, hiss]
  · cases hiss : registerUserSchemaIssues raw with
    | nil =>
      simp only [registrationAction, hiss, hu]
      by_cases he : u.email = (sanitizeRegistration raw).email
      · simp [he]
      · simp [he]
    | cons i rest => simp [registrationAction, hiss]

/-- Witness for C10: a duplicate-email submission leaves a concrete
database unchanged with no hash and no insert. -/
theorem c10_witness :
    (registrationAction ⟨"John", "jo_1", "a@b.com", "Abcdefg1", some "applicant"⟩
      [⟨"X", "other", "a@b.com", "$h", "employer"⟩] (fun _ => "$h") none).db =
      [⟨"X", "other", "a@b.com", "$h", "employer"⟩] ∧
    (registrationAction ⟨"John", "jo_1", "a@b.com", "Abcdefg1", some "applicant"⟩
      [⟨"X", "other", "a@b.com", "$h", "employer"⟩] (fun _ => "$h") none).hashCalled =
      false ∧
    (registrationAction ⟨"John", "jo_1", "a@b.com", "Abcdefg1", some "applicant"⟩
      [⟨"X", "other", "a@b.com", "$h", "employer"⟩] (fun _ => "$h") none).insertRequested =
      false ∧
    (registrationAction ⟨"John", "jo_1", "a@b.com", "Abcdefg1", some "applicant"⟩
      [⟨"X", "other", "a@b.com", "$h", "employer"⟩] (fun _ => "$h") none).outcome.status =
      "ERROR" :=
  c10_no_side_effects_on_error_paths
    ⟨"John", "jo_1", "a@b.com", "Abcdefg1", some "applicant"⟩
    [⟨"X", "other", "a@b.com", "$h", "employer"⟩] (fun _ => "$h") none
    (Or.inr ⟨⟨"X", "other", "a@b.com", "$h", "employer"⟩, by decide⟩)

end JobPortal
